import Mathlib

/-!
Verification of `pin-weak` (`src/lib.rs`): the `PinWeak<T>` wrapper around
`Weak<T>` for pinned reference-counted pointers (`Pin<Rc<T>>` / `Pin<Arc<T>>`).

The embedding models the reference-counted heap of `alloc::rc` explicitly:
a control block holds the strong count, the raw weak count (which, following
the `alloc::rc` convention, includes the one implicit weak reference held
collectively by all strong handles while `strong >= 1`), and the value
(present while `strong >= 1`). Handles are allocation identifiers; a
dangling weak handle (from `Weak::new` / `Default`) carries no identifier.
All operations are translated from `src/lib.rs` (the `implementation!`
macro, identical for the `rc` and `sync` flavors) together with the
documented semantics of the `alloc::rc` primitives they delegate to.
-/

/-- A control block of `alloc::rc`: strong count, raw weak count (including
the implicit weak reference held by the strong handles while `strong >= 1`),
and the stored value (dropped when the last strong handle goes away). -/
structure Block (V : Type) where
  strong : Nat
  weak : Nat
  value : Option V
deriving Repr, DecidableEq

/-- The reference-counted heap: a supply of fresh allocation identifiers and
the allocated control blocks (`none` = no block / already freed). -/
structure Heap (V : Type) where
  next : Nat
  blocks : Nat → Option (Block V)

/-- Read the control block at allocation `i`. -/
def Heap.get {V : Type} (h : Heap V) (i : Nat) : Option (Block V) :=
  h.blocks i

/-- Overwrite the control block at allocation `i`. -/
def Heap.set {V : Type} (h : Heap V) (i : Nat) (b : Option (Block V)) : Heap V :=
  ⟨h.next, fun j => if j = i then b else h.blocks j⟩

/-- An (unpinned) strong handle `Rc<T>` / `Arc<T>`: identity of its allocation. -/
structure Rc where
  id : Nat
deriving Repr, DecidableEq

/-- A weak handle `Weak<T>`: either dangling (`Weak::new`, the `Default`) or
the identity of its allocation. -/
structure Weak where
  ptr : Option Nat
deriving Repr, DecidableEq

/-- `Rc::clone`: the strong count of the allocation is incremented. -/
def Rc.clone {V : Type} (h : Heap V) (r : Rc) : Heap V × Rc :=
  match Heap.get h r.id with
  | none => (h, r)
  | some b => (Heap.set h r.id (some ⟨b.strong + 1, b.weak, b.value⟩), r)

/-- Dropping an `Rc`: the strong count is decremented; when it reaches zero
the value is dropped and the implicit weak reference is released, freeing the
control block if no weak handle remains. -/
def Rc.drop {V : Type} (h : Heap V) (r : Rc) : Heap V :=
  match Heap.get h r.id with
  | none => h
  | some b =>
    if b.strong ≤ 1 then
      if b.weak ≤ 1 then Heap.set h r.id none
      else Heap.set h r.id (some ⟨0, b.weak - 1, none⟩)
    else Heap.set h r.id (some ⟨b.strong - 1, b.weak, b.value⟩)

/-- `Rc::downgrade`: the raw weak count is incremented and a weak handle to
the same allocation is returned. -/
def Rc.downgrade {V : Type} (h : Heap V) (r : Rc) : Heap V × Weak :=
  match Heap.get h r.id with
  | none => (h, ⟨some r.id⟩)
  | some b => (Heap.set h r.id (some ⟨b.strong, b.weak + 1, b.value⟩), ⟨some r.id⟩)

/-- `Weak::upgrade`: `none` for a dangling handle or once the strong count is
zero; otherwise the strong count is incremented and a strong handle returned. -/
def Weak.upgrade {V : Type} (h : Heap V) (w : Weak) : Heap V × Option Rc :=
  match w.ptr with
  | none => (h, none)
  | some i =>
    match Heap.get h i with
    | none => (h, none)
    | some b =>
      if b.strong = 0 then (h, none)
      else (Heap.set h i (some ⟨b.strong + 1, b.weak, b.value⟩), some ⟨i⟩)

/-- `Weak::strong_count`: zero for a dangling handle, otherwise the strong
count of the allocation. -/
def Weak.strong_count {V : Type} (h : Heap V) (w : Weak) : Nat :=
  match w.ptr with
  | none => 0
  | some i =>
    match Heap.get h i with
    | none => 0
    | some b => b.strong

/-- `Weak::weak_count`: zero for a dangling handle; zero once no strong
pointer remains; otherwise the raw weak count minus the implicit weak
reference held by the strong handles. -/
def Weak.weak_count {V : Type} (h : Heap V) (w : Weak) : Nat :=
  match w.ptr with
  | none => 0
  | some i =>
    match Heap.get h i with
    | none => 0
    | some b => if b.strong = 0 then 0 else b.weak - 1

/-- `Weak::ptr_eq`: pointer identity; all dangling handles compare equal to
each other and unequal to any allocated handle. -/
def Weak.ptr_eq (w1 w2 : Weak) : Bool :=
  w1.ptr == w2.ptr

/-- `Weak::clone`: a dangling handle clones to a dangling handle with no
count change; otherwise the raw weak count is incremented. -/
def Weak.clone {V : Type} (h : Heap V) (w : Weak) : Heap V × Weak :=
  match w.ptr with
  | none => (h, w)
  | some i =>
    match Heap.get h i with
    | none => (h, w)
    | some b => (Heap.set h i (some ⟨b.strong, b.weak + 1, b.value⟩), w)

/-- Dropping a `Weak`: a dangling handle releases nothing; otherwise the raw
weak count is decremented, freeing the control block when it reaches zero. -/
def Weak.drop {V : Type} (h : Heap V) (w : Weak) : Heap V :=
  match w.ptr with
  | none => h
  | some i =>
    match Heap.get h i with
    | none => h
    | some b =>
      if b.weak ≤ 1 then Heap.set h i none
      else Heap.set h i (some ⟨b.strong, b.weak - 1, b.value⟩)

/-- `Weak::new`, the `Default` of `Weak<T>`: a dangling handle. -/
def Weak.new : Weak := ⟨none⟩

/-- `Pin<Rc<T>>` / `Pin<Arc<T>>`: a pinned strong handle (src/lib.rs wraps
and unwraps it with `Pin::new_unchecked` / `Pin::into_inner_unchecked`). -/
structure PinRc where
  toRc : Rc
deriving Repr, DecidableEq

/-- `PinWeak<T>` (src/lib.rs line 76): a newtype over `Weak<T>`. -/
structure PinWeak where
  toWeak : Weak
deriving Repr, DecidableEq

/-- `Pin<Rc<T>>::clone`: clones the inner `Rc`, same allocation. -/
def PinRc.clone {V : Type} (h : Heap V) (p : PinRc) : Heap V × PinRc :=
  ((Rc.clone h p.toRc).1, ⟨(Rc.clone h p.toRc).2⟩)

/-- Dropping a `Pin<Rc<T>>` drops the inner `Rc`. -/
def PinRc.drop {V : Type} (h : Heap V) (p : PinRc) : Heap V :=
  Rc.drop h p.toRc

/-- `impl Default for PinWeak` (src/lib.rs lines 77-81): `Self(Weak::default())`. -/
def PinWeak.default : PinWeak := ⟨Weak.new⟩

/-- `impl Clone for PinWeak` (src/lib.rs lines 82-86): `Self(self.0.clone())`. -/
def PinWeak.clone {V : Type} (h : Heap V) (w : PinWeak) : Heap V × PinWeak :=
  ((Weak.clone h w.toWeak).1, ⟨(Weak.clone h w.toWeak).2⟩)

/-- Dropping a `PinWeak` drops the inner `Weak`. -/
def PinWeak.drop {V : Type} (h : Heap V) (w : PinWeak) : Heap V :=
  Weak.drop h w.toWeak

/-- `PinWeak::downgrade` (src/lib.rs lines 89-92): takes the `Pin<Rc<T>>` by
value, calls `Rc::downgrade` on the temporarily unpinned `Rc`, and the `Rc`
is dropped at the end of the statement. -/
def PinWeak.downgrade {V : Type} (h : Heap V) (rc : PinRc) : Heap V × PinWeak :=
  (Rc.drop (Rc.downgrade h rc.toRc).1 rc.toRc, ⟨(Rc.downgrade h rc.toRc).2⟩)

/-- `PinWeak::upgrade` (src/lib.rs lines 94-97): `Weak::upgrade`, re-pinning
the resulting `Rc` with `Pin::new_unchecked`. -/
def PinWeak.upgrade {V : Type} (h : Heap V) (w : PinWeak) : Heap V × Option PinRc :=
  ((Weak.upgrade h w.toWeak).1, (Weak.upgrade h w.toWeak).2.map (fun r => ⟨r⟩))

/-- `PinWeak::strong_count` (src/lib.rs lines 100-102): delegates to
`Weak::strong_count`; a read-only query, the heap is untouched. -/
def PinWeak.strong_count {V : Type} (h : Heap V) (w : PinWeak) : Nat :=
  Weak.strong_count h w.toWeak

/-- `PinWeak::weak_count` (src/lib.rs lines 105-107): delegates to
`Weak::weak_count`; a read-only query, the heap is untouched. -/
def PinWeak.weak_count {V : Type} (h : Heap V) (w : PinWeak) : Nat :=
  Weak.weak_count h w.toWeak

/-- `PinWeak::ptr_eq` (src/lib.rs lines 110-112): delegates to `Weak::ptr_eq`. -/
def PinWeak.ptr_eq (w1 w2 : PinWeak) : Bool :=
  Weak.ptr_eq w1.toWeak w2.toWeak

/-- `PinWeak::new_cyclic` (src/lib.rs lines 117-123): delegates to
`Rc::new_cyclic`, wrapping the pre-initialization weak in a `PinWeak` for the
builder and pinning the resulting `Rc`. `Rc::new_cyclic` allocates the block,
runs the builder on a weak handle to the not-yet-initialized slot, writes the
returned value and sets `strong = 1`; the raw weak count ends at `1` (the
implicit weak reference of the strong handles) plus the weak clones the
builder retained. The builder is a pure function here, so the number of weak
clones it retains is passed explicitly as `kept`. -/
def PinWeak.new_cyclic {V : Type} (h : Heap V) (f : PinWeak → V) (kept : Nat) :
    Heap V × PinRc :=
  (⟨h.next + 1,
    fun j => if j = h.next then some ⟨1, 1 + kept, some (f ⟨⟨some h.next⟩⟩)⟩
             else h.blocks j⟩,
   ⟨⟨h.next⟩⟩)

theorem Heap.get_set_same {V : Type} (h : Heap V) (i : Nat) (b : Option (Block V)) :
    Heap.get (Heap.set h i b) i = b := by
  simp [Heap.get, Heap.set]

theorem Heap.get_set_other {V : Type} (h : Heap V) (i j : Nat) (b : Option (Block V))
    (hij : i ≠ j) : Heap.get (Heap.set h j b) i = Heap.get h i := by
  simp [Heap.get, Heap.set, hij]

theorem rc_clone_snd {V : Type} (h : Heap V) (r : Rc) : (Rc.clone h r).2 = r := by
  unfold Rc.clone
  split <;> rfl

theorem rc_downgrade_snd {V : Type} (h : Heap V) (r : Rc) :
    (Rc.downgrade h r).2 = ⟨some r.id⟩ := by
  unfold Rc.downgrade
  split <;> rfl

theorem pinRc_clone_snd {V : Type} (h : Heap V) (p : PinRc) : (PinRc.clone h p).2 = p := by
  simp [PinRc.clone, rc_clone_snd]

theorem pinWeak_downgrade_snd {V : Type} (h : Heap V) (p : PinRc) :
    (PinWeak.downgrade h p).2 = ⟨⟨some p.toRc.id⟩⟩ := by
  simp [PinWeak.downgrade, rc_downgrade_snd]

/-- The kinds of owning/observing handles to a value behind the wrapper that
client code could hold. -/
inductive HandleKind where
  | pinnedStrong
  | unpinnedStrong
  | pinWeak
deriving DecidableEq, Repr

/-- The handle kinds obtainable through the public API surface of
`PinWeak<T>` (src/lib.rs lines 76-124): the entry point is a pinned strong
handle (`Rc::pin`); `downgrade` consumes a pinned strong and yields a
`PinWeak`; `upgrade` yields (optionally) a pinned strong; `clone` and
`default` yield a `PinWeak`; `new_cyclic` yields a pinned strong; the
remaining operations (`strong_count`, `weak_count`, `ptr_eq`) yield no
handle at all. No constructor produces an unpinned strong handle: the
unpinned intermediates inside `downgrade` and `upgrade` are not returned. -/
inductive ReachableKind : HandleKind → Prop where
  | entry : ReachableKind .pinnedStrong
  | strong_clone : ReachableKind .pinnedStrong → ReachableKind .pinnedStrong
  | of_downgrade : ReachableKind .pinnedStrong → ReachableKind .pinWeak
  | of_upgrade : ReachableKind .pinWeak → ReachableKind .pinnedStrong
  | of_clone : ReachableKind .pinWeak → ReachableKind .pinWeak
  | of_default : ReachableKind .pinWeak
  | of_new_cyclic : ReachableKind .pinnedStrong

/-- C1: no sequence of public API calls on `PinWeak<T>` yields an unpinned
owning handle (an `Rc<T>`/`Arc<T>` not wrapped in `Pin`) to a value behind
the wrapper: `upgrade` returns only Pin-wrapped strong handles, and the
unpinned intermediates inside `downgrade` and `upgrade` never escape. -/
theorem pin_preservation : ¬ ReachableKind .unpinnedStrong := by
  intro h
  cases h

/-- C9: a default-constructed `PinWeak<T>` references no allocation;
`upgrade` on it returns `none`; `strong_count` and `weak_count` return 0. -/
theorem default_pinweak_empty {V : Type} (h : Heap V) :
    PinWeak.default.toWeak.ptr = none ∧
    (PinWeak.upgrade h PinWeak.default).2 = none ∧
    PinWeak.strong_count h PinWeak.default = 0 ∧
    PinWeak.weak_count h PinWeak.default = 0 :=
  ⟨rfl, rfl, rfl, rfl⟩

/-- C8: for a pinned strong handle `s`, the wrappers `w1 = downgrade(s.clone())`
and `w2 = downgrade(s.clone())` (the second created after the first) satisfy
`w1.ptr_eq(&w2) = true`, and `w1.ptr_eq` of a default-constructed wrapper is
`false`. -/
theorem ptr_eq_downgrade_clones {V : Type} (h : Heap V) (s : PinRc) :
    PinWeak.ptr_eq (PinWeak.downgrade (PinRc.clone h s).1 (PinRc.clone h s).2).2
      (PinWeak.downgrade
        (PinRc.clone (PinWeak.downgrade (PinRc.clone h s).1 (PinRc.clone h s).2).1 s).1
        (PinRc.clone (PinWeak.downgrade (PinRc.clone h s).1 (PinRc.clone h s).2).1 s).2).2
      = true ∧
    PinWeak.ptr_eq (PinWeak.downgrade (PinRc.clone h s).1 (PinRc.clone h s).2).2
      PinWeak.default = false := by
  constructor <;>
    simp [pinWeak_downgrade_snd, pinRc_clone_snd, PinWeak.ptr_eq, Weak.ptr_eq,
      PinWeak.default, Weak.new]

/-- A concrete live heap: allocation 0 holds one strong handle, no explicit
weak handle (raw weak count 1 = the implicit weak reference), value 44. -/
def liveHeap : Heap Nat := ⟨1, fun j => if j = 0 then some ⟨1, 1, some 44⟩ else none⟩

/-- A concrete heap in the Dying state: allocation 0 has strong count 0 while
two weak handles are still live (raw weak count 2), value already dropped. -/
def dyingHeap : Heap Nat := ⟨1, fun j => if j = 0 then some ⟨0, 2, none⟩ else none⟩

/-- A concrete live heap in which allocation 0 holds its last strong handle
and two explicit weak handles (raw weak count 3), value 44. -/
def lastStrongHeap : Heap Nat :=
  ⟨1, fun j => if j = 0 then some ⟨1, 3, some 44⟩ else none⟩

/-- C6 counterexample: in the Dying state (strong count 0, a live weak
handle) `upgrade` does return `none`, but `weak_count` reports 0, not a
positive number: `Weak::weak_count` returns zero once no strong pointer
remains, exactly as the crate's own test asserts (`weak2.weak_count() == 0`
after the last strong handle is gone, src/lib.rs line 157). -/
theorem dying_weak_count_not_positive :
    Heap.get dyingHeap 0 = some ⟨0, 2, none⟩ ∧
    (PinWeak.upgrade dyingHeap ⟨⟨some 0⟩⟩).2 = none ∧
    PinWeak.weak_count dyingHeap ⟨⟨some 0⟩⟩ = 0 ∧
    ¬ 0 < PinWeak.weak_count dyingHeap ⟨⟨some 0⟩⟩ := by
  refine ⟨rfl, rfl, rfl, ?_⟩
  decide

/-- C6 (amended): whenever a control block is in the Dying state (strong
count = 0 while at least one weak reference still exists), `upgrade` on any
wrapper for that block returns `none`, and `weak_count` on it reports 0 (the
underlying primitive reports zero once no strong pointer remains). -/
theorem dying_upgrade_none_weak_count_zero {V : Type} (h : Heap V) (i : Nat)
    (b : Block V) (hb : Heap.get h i = some b) (hdead : b.strong = 0)
    (hweak : 1 ≤ b.weak) :
    (PinWeak.upgrade h ⟨⟨some i⟩⟩).2 = none ∧
    PinWeak.weak_count h ⟨⟨some i⟩⟩ = 0 := by
  simp [PinWeak.upgrade, Weak.upgrade, PinWeak.weak_count, Weak.weak_count, hb, hdead]

/-- Witness for the amended C6 theorem at the concrete Dying heap. -/
theorem dying_upgrade_none_weak_count_zero_witness :
    (PinWeak.upgrade dyingHeap ⟨⟨some 0⟩⟩).2 = none ∧
    PinWeak.weak_count dyingHeap ⟨⟨some 0⟩⟩ = 0 :=
  dying_upgrade_none_weak_count_zero dyingHeap 0 ⟨0, 2, none⟩ rfl rfl (by decide)

/-- C5 counterexample: `downgrade` is a public operation other than `clone`
and `drop` of a `PinWeak`, yet `downgrade(s.clone())` changes the underlying
weak count of the allocation: starting from raw weak count 1 (reported
`weak_count` 0) it leaves raw weak count 2 (reported `weak_count` 1). -/
theorem downgrade_changes_weak_count :
    Heap.get liveHeap 0 = some ⟨1, 1, some 44⟩ ∧
    Heap.get (PinWeak.downgrade (PinRc.clone liveHeap ⟨⟨0⟩⟩).1
        (PinRc.clone liveHeap ⟨⟨0⟩⟩).2).1 0 = some ⟨1, 2, some 44⟩ ∧
    PinWeak.weak_count (PinWeak.downgrade (PinRc.clone liveHeap ⟨⟨0⟩⟩).1
        (PinRc.clone liveHeap ⟨⟨0⟩⟩).2).1 ⟨⟨some 0⟩⟩
      ≠ PinWeak.weak_count liveHeap ⟨⟨some 0⟩⟩ := by
  refine ⟨rfl, rfl, ?_⟩
  decide

/-- C5 (amended): cloning a `PinWeak` increments the underlying raw weak
count by one and dropping a `PinWeak` (that is not the last reference)
decrements it by one; but these are not the only public operations that
change the weak count: `downgrade` also increments it (see the C5
counterexample) and `new_cyclic` initializes it. -/
theorem clone_drop_weak_count {V : Type} (h : Heap V) (i : Nat) (b : Block V)
    (hb : Heap.get h i = some b) (hw : 2 ≤ b.weak) :
    Heap.get (PinWeak.clone h ⟨⟨some i⟩⟩).1 i = some ⟨b.strong, b.weak + 1, b.value⟩ ∧
    Heap.get (PinWeak.drop h ⟨⟨some i⟩⟩) i = some ⟨b.strong, b.weak - 1, b.value⟩ := by
  have hw1 : ¬ b.weak ≤ 1 := by omega
  constructor <;>
    simp [PinWeak.clone, Weak.clone, PinWeak.drop, Weak.drop, hb, hw1,
      Heap.get_set_same]

/-- Witness for the amended C5 theorem at a concrete heap. -/
theorem clone_drop_weak_count_witness :
    Heap.get (PinWeak.clone lastStrongHeap ⟨⟨some 0⟩⟩).1 0 = some ⟨1, 3 + 1, some 44⟩ ∧
    Heap.get (PinWeak.drop lastStrongHeap ⟨⟨some 0⟩⟩) 0 = some ⟨1, 3 - 1, some 44⟩ :=
  clone_drop_weak_count lastStrongHeap 0 ⟨1, 3, some 44⟩ rfl (by decide)

/-- C7 counterexample: a live target (strong count 1) with two explicit weak
handles reports `weak_count = 2`; creating a third wrapper by `downgrade` of
the (last, un-cloned) strong handle makes the reported `weak_count` 0, not 3:
`downgrade` consumes its strong argument, and once the strong count reaches
zero the underlying primitive reports `weak_count = 0` (exactly the `weak3`
scenario of the crate's own test, src/lib.rs lines 151-157). -/
theorem downgrade_last_strong_weak_count :
    Heap.get lastStrongHeap 0 = some ⟨1, 3, some 44⟩ ∧
    PinWeak.weak_count lastStrongHeap ⟨⟨some 0⟩⟩ = 2 ∧
    PinWeak.weak_count (PinWeak.downgrade lastStrongHeap ⟨⟨0⟩⟩).1
      (PinWeak.downgrade lastStrongHeap ⟨⟨0⟩⟩).2 = 0 ∧
    PinWeak.weak_count (PinWeak.downgrade lastStrongHeap ⟨⟨0⟩⟩).1
      (PinWeak.downgrade lastStrongHeap ⟨⟨0⟩⟩).2
      ≠ PinWeak.weak_count lastStrongHeap ⟨⟨some 0⟩⟩ + 1 := by
  refine ⟨rfl, rfl, rfl, ?_⟩
  decide

/-- C7 (amended): for a live target, creating a wrapper by `downgrade` of a
clone of a strong handle (so the target stays live) increases the reported
`weak_count` by exactly one, and dropping that wrapper decreases it by
exactly one; downgrading the last strong handle instead drops the reported
`weak_count` to zero. -/
theorem downgrade_clone_weak_count {V : Type} (h : Heap V) (s : PinRc) (b : Block V)
    (hb : Heap.get h s.toRc.id = some b) (hs : 0 < b.strong) (hw : 1 ≤ b.weak) :
    PinWeak.weak_count (PinWeak.downgrade (PinRc.clone h s).1 (PinRc.clone h s).2).1
      (PinWeak.downgrade (PinRc.clone h s).1 (PinRc.clone h s).2).2
      = PinWeak.weak_count h ⟨⟨some s.toRc.id⟩⟩ + 1 ∧
    PinWeak.weak_count
      (PinWeak.drop (PinWeak.downgrade (PinRc.clone h s).1 (PinRc.clone h s).2).1
        (PinWeak.downgrade (PinRc.clone h s).1 (PinRc.clone h s).2).2)
      ⟨⟨some s.toRc.id⟩⟩
      = PinWeak.weak_count h ⟨⟨some s.toRc.id⟩⟩ := by
  have hs1 : ¬ b.strong + 1 ≤ 1 := by omega
  have hs0 : ¬ b.strong = 0 := by omega
  have hw1 : ¬ b.weak + 1 ≤ 1 := by omega
  constructor <;>
    simp only [PinRc.clone, Rc.clone, PinWeak.downgrade, Rc.downgrade, Rc.drop,
      PinWeak.drop, Weak.drop, PinWeak.weak_count, Weak.weak_count, hb,
      Heap.get_set_same, Nat.add_sub_cancel, hs1, hs0, hw1, if_false, if_neg] <;>
    omega

/-- Witness for the amended C7 theorem at the concrete live heap. -/
theorem downgrade_clone_weak_count_witness :
    PinWeak.weak_count (PinWeak.downgrade (PinRc.clone liveHeap ⟨⟨0⟩⟩).1
        (PinRc.clone liveHeap ⟨⟨0⟩⟩).2).1
      (PinWeak.downgrade (PinRc.clone liveHeap ⟨⟨0⟩⟩).1 (PinRc.clone liveHeap ⟨⟨0⟩⟩).2).2
      = PinWeak.weak_count liveHeap ⟨⟨some 0⟩⟩ + 1 ∧
    PinWeak.weak_count
      (PinWeak.drop (PinWeak.downgrade (PinRc.clone liveHeap ⟨⟨0⟩⟩).1
          (PinRc.clone liveHeap ⟨⟨0⟩⟩).2).1
        (PinWeak.downgrade (PinRc.clone liveHeap ⟨⟨0⟩⟩).1 (PinRc.clone liveHeap ⟨⟨0⟩⟩).2).2)
      ⟨⟨some 0⟩⟩
      = PinWeak.weak_count liveHeap ⟨⟨some 0⟩⟩ :=
  downgrade_clone_weak_count liveHeap ⟨⟨0⟩⟩ ⟨1, 1, some 44⟩ rfl (by decide) (by decide)

/-- C2: for a pinned strong handle `s` and the wrapper
`w = downgrade(s.clone())`: as long as the target's strong count is positive
(some clone of `s` is still live) `w.upgrade()` returns a pinned strong
handle; in any later heap in which every strong clone has been dropped (the
strong count is zero, or the block is even gone) `w.upgrade()` returns
`none`. -/
theorem downgraded_upgrade_liveness {V : Type} (h : Heap V) (s : PinRc) (b : Block V)
    (hb : Heap.get h s.toRc.id = some b) (hs : 0 < b.strong) :
    ((PinWeak.upgrade (PinWeak.downgrade (PinRc.clone h s).1 (PinRc.clone h s).2).1
        (PinWeak.downgrade (PinRc.clone h s).1 (PinRc.clone h s).2).2).2).isSome = true ∧
    (∀ (h' : Heap V) (b' : Block V), Heap.get h' s.toRc.id = some b' → b'.strong = 0 →
      (PinWeak.upgrade h'
        (PinWeak.downgrade (PinRc.clone h s).1 (PinRc.clone h s).2).2).2 = none) ∧
    (∀ h' : Heap V, Heap.get h' s.toRc.id = none →
      (PinWeak.upgrade h'
        (PinWeak.downgrade (PinRc.clone h s).1 (PinRc.clone h s).2).2).2 = none) := by
  have hs1 : ¬ b.strong + 1 ≤ 1 := by omega
  have hs0 : ¬ b.strong = 0 := by omega
  refine ⟨?_, ?_, ?_⟩
  · simp only [PinRc.clone, Rc.clone, PinWeak.downgrade, Rc.downgrade, Rc.drop,
      PinWeak.upgrade, Weak.upgrade, hb, Heap.get_set_same, Nat.add_sub_cancel,
      hs1, hs0, if_false, if_neg]
    simp
  · intro h' b' hb' hdead
    simp only [PinRc.clone, Rc.clone, PinWeak.downgrade, Rc.downgrade,
      PinWeak.upgrade, Weak.upgrade, hb, Heap.get_set_same]
    simp [hb', hdead]
  · intro h' hb'
    simp only [PinRc.clone, Rc.clone, PinWeak.downgrade, Rc.downgrade,
      PinWeak.upgrade, Weak.upgrade, hb, Heap.get_set_same]
    simp [hb']

/-- Witness for the C2 theorem at the concrete live heap. -/
theorem downgraded_upgrade_liveness_witness :
    ((PinWeak.upgrade (PinWeak.downgrade (PinRc.clone liveHeap ⟨⟨0⟩⟩).1
          (PinRc.clone liveHeap ⟨⟨0⟩⟩).2).1
        (PinWeak.downgrade (PinRc.clone liveHeap ⟨⟨0⟩⟩).1
          (PinRc.clone liveHeap ⟨⟨0⟩⟩).2).2).2).isSome = true ∧
    (∀ (h' : Heap Nat) (b' : Block Nat), Heap.get h' 0 = some b' → b'.strong = 0 →
      (PinWeak.upgrade h'
        (PinWeak.downgrade (PinRc.clone liveHeap ⟨⟨0⟩⟩).1
          (PinRc.clone liveHeap ⟨⟨0⟩⟩).2).2).2 = none) ∧
    (∀ h' : Heap Nat, Heap.get h' 0 = none →
      (PinWeak.upgrade h'
        (PinWeak.downgrade (PinRc.clone liveHeap ⟨⟨0⟩⟩).1
          (PinRc.clone liveHeap ⟨⟨0⟩⟩).2).2).2 = none) :=
  downgraded_upgrade_liveness liveHeap ⟨⟨0⟩⟩ ⟨1, 1, some 44⟩ rfl (by decide)

/-- C3: for a pinned strong handle `s` whose target stays live through the
call (at least one other strong clone exists, so consuming `s` inside
`downgrade` leaves the strong count positive), `upgrade(downgrade(s))`
returns `some` pinned strong handle to the same allocation as `s`, and the
block observed through it holds the same value. -/
theorem upgrade_downgrade_roundtrip {V : Type} (h : Heap V) (s : PinRc) (b : Block V)
    (hb : Heap.get h s.toRc.id = some b) (hs : 2 ≤ b.strong) :
    ∃ t : PinRc,
      (PinWeak.upgrade (PinWeak.downgrade h s).1 (PinWeak.downgrade h s).2).2 = some t ∧
      t.toRc.id = s.toRc.id ∧
      ∃ b' : Block V,
        Heap.get (PinWeak.upgrade (PinWeak.downgrade h s).1 (PinWeak.downgrade h s).2).1
          t.toRc.id = some b' ∧ b'.value = b.value := by
  have hs1 : ¬ b.strong ≤ 1 := by omega
  have hs0 : ¬ b.strong - 1 = 0 := by omega
  simp only [PinWeak.downgrade, Rc.downgrade, Rc.drop, PinWeak.upgrade, Weak.upgrade,
    hb, Heap.get_set_same, hs1, hs0, if_false, if_neg]
  exact ⟨⟨⟨s.toRc.id⟩⟩, rfl, rfl, ⟨b.strong - 1 + 1, b.weak + 1, b.value⟩,
    Heap.get_set_same _ _ _, rfl⟩

/-- Witness for the C3 theorem at a concrete heap with two strong handles. -/
theorem upgrade_downgrade_roundtrip_witness :
    ∃ t : PinRc,
      (PinWeak.upgrade (PinWeak.downgrade ⟨1, fun j => if j = 0 then some ⟨2, 1, some 44⟩
            else none⟩ ⟨⟨0⟩⟩).1
          (PinWeak.downgrade ⟨1, fun j => if j = 0 then some ⟨2, 1, some 44⟩
            else none⟩ ⟨⟨0⟩⟩).2).2 = some t ∧
      t.toRc.id = 0 ∧
      ∃ b' : Block Nat,
        Heap.get (PinWeak.upgrade (PinWeak.downgrade ⟨1, fun j => if j = 0
              then some ⟨2, 1, some 44⟩ else none⟩ ⟨⟨0⟩⟩).1
            (PinWeak.downgrade ⟨1, fun j => if j = 0 then some ⟨2, 1, some 44⟩
              else none⟩ ⟨⟨0⟩⟩).2).1 t.toRc.id = some b' ∧
          b'.value = some 44 :=
  upgrade_downgrade_roundtrip ⟨1, fun j => if j = 0 then some ⟨2, 1, some 44⟩ else none⟩
    ⟨⟨0⟩⟩ ⟨2, 1, some 44⟩ rfl (by decide)

/-- The `Gadget` of the crate's `test_cyclic` test (src/lib.rs lines 167-170):
a value holding a `PinWeak` to itself and a string. -/
structure Gadget where
  me : PinWeak
  value : String
deriving Repr, DecidableEq

/-- `Gadget::new("hello")` (src/lib.rs lines 173-177, 189): `new_cyclic` with
a builder that clones the provided weak into the value; the builder retains
exactly one weak clone. -/
def gadgetNew (h : Heap Gadget) : Heap Gadget × PinRc :=
  PinWeak.new_cyclic h (fun me => ⟨me, "hello"⟩) 1

/-- C4: `new_cyclic` invokes the builder with a `PinWeak` already aimed at
the value's own final allocation and returns a pinned strong handle; when
the builder clones that weak into the constructed value (here the `Gadget`
built with the string "hello"), the value's stored weak upgrades to a handle
referring to the containing allocation, and reading the string back through
that handle yields "hello". -/
theorem new_cyclic_self_reference (h : Heap Gadget) :
    ∃ g : Gadget,
      (Heap.get (gadgetNew h).1 (gadgetNew h).2.toRc.id).bind Block.value = some g ∧
      g.me = ⟨⟨some (gadgetNew h).2.toRc.id⟩⟩ ∧
      g.value = "hello" ∧
      (PinWeak.upgrade (gadgetNew h).1 g.me).2 = some (gadgetNew h).2 ∧
      ((Heap.get (PinWeak.upgrade (gadgetNew h).1 g.me).1
          (gadgetNew h).2.toRc.id).bind Block.value).map Gadget.value
        = some ("hello") := by
  refine ⟨⟨⟨⟨some h.next⟩⟩, "hello"⟩, ?_, rfl, rfl, ?_, ?_⟩ <;>
    simp [gadgetNew, PinWeak.new_cyclic, PinWeak.upgrade, Weak.upgrade,
      Heap.get, Heap.set]

/-- C10: the query operations of the wrapper are read-only (`strong_count`,
`weak_count` and `ptr_eq` are functions of the heap, translated from `&self`
methods that delegate to the read-only `Weak` queries), and `upgrade` leaves
the heap unchanged when it returns `none`; when it returns `some` handle it
increments the target's strong count by one and leaves the reported
`weak_count` unchanged. -/
theorem upgrade_frame {V : Type} (h : Heap V) (w : PinWeak) :
    ((PinWeak.upgrade h w).2 = none → (PinWeak.upgrade h w).1 = h) ∧
    (∀ s : PinRc, (PinWeak.upgrade h w).2 = some s →
      PinWeak.strong_count (PinWeak.upgrade h w).1 w
        = PinWeak.strong_count h w + 1 ∧
      PinWeak.weak_count (PinWeak.upgrade h w).1 w = PinWeak.weak_count h w) := by
  rcases w with ⟨⟨_ | i⟩⟩
  · exact ⟨fun _ => rfl, fun s hs => by simp [PinWeak.upgrade, Weak.upgrade] at hs⟩
  · rcases hg : Heap.get h i with _ | b
    · constructor
      · intro _
        simp [PinWeak.upgrade, Weak.upgrade, hg]
      · intro s hs
        simp [PinWeak.upgrade, Weak.upgrade, hg] at hs
    · by_cases hb0 : b.strong = 0
      · constructor
        · intro _
          simp [PinWeak.upgrade, Weak.upgrade, hg, hb0]
        · intro s hs
          simp [PinWeak.upgrade, Weak.upgrade, hg, hb0] at hs
      · constructor
        · intro hnone
          simp [PinWeak.upgrade, Weak.upgrade, hg, hb0] at hnone
        · intro s _
          constructor <;>
            simp [PinWeak.upgrade, Weak.upgrade, PinWeak.strong_count,
              Weak.strong_count, PinWeak.weak_count, Weak.weak_count, hg, hb0,
              Heap.get_set_same]

/-- Witness for the C10 theorem: a successful upgrade at the concrete live
heap increments the strong count and leaves the reported weak count alone. -/
theorem upgrade_frame_witness :
    PinWeak.strong_count (PinWeak.upgrade liveHeap ⟨⟨some 0⟩⟩).1 ⟨⟨some 0⟩⟩
      = PinWeak.strong_count liveHeap ⟨⟨some 0⟩⟩ + 1 ∧
    PinWeak.weak_count (PinWeak.upgrade liveHeap ⟨⟨some 0⟩⟩).1 ⟨⟨some 0⟩⟩
      = PinWeak.weak_count liveHeap ⟨⟨some 0⟩⟩ :=
  (upgrade_frame liveHeap ⟨⟨some 0⟩⟩).2 ⟨⟨0⟩⟩ rfl
